import Mathlib

/-!
Verification of the NPS now-playing reporter (src/nps01.py).

Shallow embedding: strings are `List Char`; Python `str.strip`,
`str.splitlines` and the two compiled regular expressions of
`FileParser` are modelled character by character; the HTTP transport,
the timezone database and the filesystem are passed in as explicit
values so that every function of the program becomes a pure Lean
function.
-/

namespace NPS

/-- Models Python `str.isspace` / the character set removed by
`str.strip`: the Unicode whitespace characters recognised by CPython. -/
def isPyWhitespace (c : Char) : Bool :=
  let n := c.toNat
  decide ((9 ≤ n ∧ n ≤ 13) ∨ n = 32 ∨ (28 ≤ n ∧ n ≤ 31) ∨ n = 133 ∨
    n = 160 ∨ n = 5760 ∨ (8192 ≤ n ∧ n ≤ 8202) ∨ n = 8232 ∨ n = 8233 ∨
    n = 8239 ∨ n = 8287 ∨ n = 12288)

/-- Models Python `str.strip()` (no argument): drop leading and trailing
whitespace. -/
def pyStrip (s : List Char) : List Char :=
  ((s.dropWhile isPyWhitespace).reverse.dropWhile isPyWhitespace).reverse

/-- Line-boundary characters of Python `str.splitlines`:
LF, VT, FF, CR, FS, GS, RS, NEL, LINE SEPARATOR, PARAGRAPH SEPARATOR
(CR LF is handled as a single boundary in `splitlines`). -/
def isLineBreakChar (c : Char) : Bool :=
  let n := c.toNat
  decide ((10 ≤ n ∧ n ≤ 13) ∨ (28 ≤ n ∧ n ≤ 30) ∨ n = 133 ∨
    n = 8232 ∨ n = 8233)

/-- Accumulator-passing worker for `splitlines`; `acc` holds the
current line reversed. -/
def splitlinesAux : List Char → List Char → List (List Char)
  | [], acc => if acc.isEmpty then [] else [acc.reverse]
  | '\x0d' :: '\n' :: rest, acc => acc.reverse :: splitlinesAux rest []
  | c :: rest, acc =>
    if isLineBreakChar c then acc.reverse :: splitlinesAux rest []
    else splitlinesAux rest (c :: acc)

/-- Models Python `str.splitlines()` (keepends = False). -/
def splitlines (s : List Char) : List (List Char) :=
  splitlinesAux s []

/-- Case-insensitive literal-prefix matching, the engine behind the two
anchored patterns: consumes `label` from the front of `line` comparing
characters after `Char.toLower` (the patterns' letters are ASCII) and
returns the remainder of the line on success. -/
def labelRest : List Char → List Char → Option (List Char)
  | [], rest => some rest
  | _ :: _, [] => none
  | p :: ps, c :: cs => if c.toLower = p.toLower then labelRest ps cs else none

/-- Models `re.match` of a pattern of the form `^LABEL(.+)$` with
`re.IGNORECASE` against a single line (lines produced by `splitlines`
contain no newline, so `.` and `$` impose no further restriction):
the match succeeds iff the line starts with `label` (case-insensitive)
and at least one character follows; the returned value is capture
group 1. -/
def patMatch (label : List Char) (line : List Char) : Option (List Char) :=
  match labelRest label line with
  | some rest => if rest.isEmpty then none else some rest
  | none => none

/-- The literal part of `FileParser.ARTIST_PATTERN = re.compile(r'^Artist: (.+)$', re.IGNORECASE)`. -/
def ARTIST_LABEL : List Char := "Artist: ".toList

/-- The literal part of `FileParser.TITLE_PATTERN = re.compile(r'^Title: (.+)$', re.IGNORECASE)`. -/
def TITLE_LABEL : List Char := "Title: ".toList

/-- `FileParser.ARTIST_PATTERN.match line` -/
def artistMatch (line : List Char) : Option (List Char) :=
  patMatch ARTIST_LABEL line

/-- `FileParser.TITLE_PATTERN.match line` -/
def titleMatch (line : List Char) : Option (List Char) :=
  patMatch TITLE_LABEL line

/-- One iteration of the loop body of `FileParser._extract_metadata`:
strip the line, skip it when blank, otherwise try the artist pattern
first (on success the title pattern is not tried: `continue`), then the
title pattern; a match overwrites the corresponding candidate with
capture group 1 stripped. -/
def extract_step (st : Option (List Char) × Option (List Char))
    (rawLine : List Char) : Option (List Char) × Option (List Char) :=
  let line := pyStrip rawLine
  if line.isEmpty then st
  else
    match artistMatch line with
    | some v => (some (pyStrip v), st.2)
    | none =>
      match titleMatch line with
      | some v => (st.1, some (pyStrip v))
      | none => st

/-- `FileParser._extract_metadata`: fold the loop body over
`content.splitlines()` starting from `artist = None, title = None`. -/
def extract_metadata (content : List Char) :
    Option (List Char) × Option (List Char) :=
  (splitlines content).foldl extract_step (none, none)

/-- The stripped capture value a raw line contributes to the artist
candidate, if any: guard and assignment of the artist branch of the
loop in `_extract_metadata`. -/
def artistValOf (rawLine : List Char) : Option (List Char) :=
  (artistMatch (pyStrip rawLine)).map pyStrip

/-- The stripped capture value a raw line contributes to the title
candidate, if any. -/
def titleValOf (rawLine : List Char) : Option (List Char) :=
  (titleMatch (pyStrip rawLine)).map pyStrip

/-- The guard `if artist and title:` used by both callers of
`FileParser.parse_file` (`FileChangeHandler._process_file_change` and
`RadioPlayerMonitor._process_initial_file`): Python truthiness of the
two optional strings — `None` and the empty string are falsy. -/
def bothPresent : Option (List Char) × Option (List Char) → Bool
  | (some a, some t) => !a.isEmpty && !t.isEmpty
  | _ => false

/-- Python exceptions relevant to the program, as values. -/
inductive PyExn where
  | fileNotFound
  | ioError
  | otherError
deriving DecidableEq

/-- `FileParser.parse_file`, with the filesystem passed in explicitly:
`fileExists` is `file_path.exists()` and `readResult` the outcome of
opening and reading the file as UTF-8 text.  The function raises
`FileNotFoundError` when the file does not exist, re-raises a read
error as `IOError`, returns `(None, None)` for a file that is empty
after stripping, and otherwise defers to `_extract_metadata`. -/
def parse_file (fileExists : Bool) (readResult : Except PyExn (List Char)) :
    Except PyExn (Option (List Char) × Option (List Char)) :=
  if !fileExists then .error .fileNotFound
  else
    match readResult with
    | .error _ => .error .ioError
    | .ok content =>
      let c := pyStrip content
      if c.isEmpty then .ok (none, none)
      else .ok (extract_metadata c)

/-- Outcome classification of one `RadioPlayerAPI.post_now_playing`
call, following the spec's taxonomy for the code's three exits:
`rejected` is the early `return False` of the validation guard,
`failed` the `return False` of the `except RequestException` arm, and
`delivered` the `return True` after `raise_for_status` passes. -/
inductive Outcome where
  | delivered
  | rejected
  | failed
deriving DecidableEq

/-- Result of the one `self.session.post(url, timeout=30)` call:
either an HTTP response with its final status code, or a transport
error / timeout (any `requests.exceptions.RequestException` raised by
the call itself). -/
inductive TransportResult where
  | response (status : ℕ)
  | transportError
deriving DecidableEq

/-- `RadioPlayerAPI._validate_metadata`: false when either string is
empty (Python falsiness), or when either strips to length zero. -/
def validate_metadata (artist title : List Char) : Bool :=
  if artist.isEmpty || title.isEmpty then false
  else if (pyStrip artist).length = 0 || (pyStrip title).length = 0 then false
  else true

/-- `requests.Response.raise_for_status` raises `HTTPError` exactly for
status codes 400–599 (4xx client errors and 5xx server errors). -/
def raise_for_status (status : ℕ) : Bool :=
  decide ((400 ≤ status ∧ status < 500) ∨ (500 ≤ status ∧ status < 600))

/-- A `datetime.datetime` as consumed by
`strftime('%Y-%m-%dT%H:%M:%S')` (sub-second fields are not printed). -/
structure PyDateTime where
  year : ℕ
  month : ℕ
  day : ℕ
  hour : ℕ
  minute : ℕ
  second : ℕ
deriving DecidableEq

/-- The ASCII digit character for `n % 10`. -/
def digitChar (n : ℕ) : Char := Char.ofNat (48 + n % 10)

/-- Two-digit zero-padded decimal field (`%m`, `%d`, `%H`, `%M`, `%S`);
faithful for the 0–99 range, which `datetime` guarantees. -/
def pad2 (n : ℕ) : List Char := [digitChar (n / 10), digitChar n]

/-- Four-digit year field `%Y`; faithful for years 1000–9999. -/
def pad4 (n : ℕ) : List Char :=
  [digitChar (n / 1000), digitChar (n / 100), digitChar (n / 10), digitChar n]

/-- `datetime.strftime('%Y-%m-%dT%H:%M:%S')`. -/
def strftimeTs (dt : PyDateTime) : List Char :=
  pad4 dt.year ++ '-' :: pad2 dt.month ++ '-' :: pad2 dt.day ++
    'T' :: pad2 dt.hour ++ ':' :: pad2 dt.minute ++ ':' :: pad2 dt.second

/-- `RadioPlayerAPI._get_current_timestamp`, with the pytz timezone
database passed in explicitly: `tzdb` maps a timezone identifier to
its localisation function when the identifier is recognised (`none`
models `pytz.timezone` raising `UnknownTimeZoneError`), `utcnow`
converts the current instant to UTC, and `now` is the current instant
(abstract clock ticks).  A recognised zone formats the localised time;
an unknown zone falls back to UTC (with a logged warning). -/
def get_current_timestamp (tzdb : List Char → Option (ℕ → PyDateTime))
    (utcnow : ℕ → PyDateTime) (timezone : List Char) (now : ℕ) : List Char :=
  match tzdb timezone with
  | some localize => strftimeTs (localize now)
  | none => strftimeTs (utcnow now)

/-- Decides whether `c` needs no encoding under
`urllib.parse.quote_plus`: the always-safe set is ASCII letters,
digits, and `_.-~`. -/
def alwaysSafe (c : Char) : Bool :=
  c.isAlpha || c.isDigit || c = '_' || c = '.' || c = '-' || c = '~'

/-- UTF-8 encoding of one character, as byte values. -/
def utf8Bytes (c : Char) : List ℕ :=
  let n := c.toNat
  if n < 128 then [n]
  else if n < 2048 then [192 + n / 64, 128 + n % 64]
  else if n < 65536 then [224 + n / 4096, 128 + (n / 64) % 64, 128 + n % 64]
  else [240 + n / 262144, 128 + (n / 4096) % 64, 128 + (n / 64) % 64,
    128 + n % 64]

/-- Uppercase hexadecimal digit for `n % 16`. -/
def hexDigit (n : ℕ) : Char :=
  if n % 16 < 10 then Char.ofNat (48 + n % 16) else Char.ofNat (55 + n % 16)

/-- Percent-escape of one byte, `%XX` with uppercase hex. -/
def pctByte (b : ℕ) : List Char := ['%', hexDigit (b / 16), hexDigit b]

/-- `urllib.parse.quote_plus`: safe characters kept, spaces become
`+`, every other character percent-escaped byte-wise as UTF-8. -/
def quote_plus (s : List Char) : List Char :=
  (s.map (fun c =>
    if alwaysSafe c then [c]
    else if c = ' ' then ['+']
    else ((utf8Bytes c).map pctByte).flatten)).flatten

/-- `RadioPlayerAPI._build_url`: the endpoint followed by the literal
query string with `rpuid`, `startTime`, `title`, `artist`; title and
artist are `quote_plus`-encoded. -/
def build_url (api_endpoint : List Char) (rpuid : ℕ)
    (artist title timestamp : List Char) : List Char :=
  api_endpoint ++ ("?rpuid=".toList) ++ (Nat.repr rpuid).toList ++
    ("&startTime=".toList) ++ timestamp ++
    ("&title=".toList) ++ quote_plus title ++
    ("&artist=".toList) ++ quote_plus artist

/-- `RadioPlayerAPI.post_now_playing`, returning the outcome, the
number of HTTP requests performed, and the URL that was built (`none`
when the validation guard returned before building one).  The
validation guard returns `False` (here `rejected`) without touching
the network; otherwise the timestamp and URL are built and the single
`session.post` is performed: a `RequestException` from the transport,
or one raised by `raise_for_status` on a 4xx/5xx status, is caught
and swallowed, yielding `False` (here `failed`); any other response
yields `True` (here `delivered`). -/
def post_now_playing (tzdb : List Char → Option (ℕ → PyDateTime))
    (utcnow : ℕ → PyDateTime) (timezone : List Char) (now : ℕ)
    (api_endpoint : List Char) (rpuid : ℕ) (artist title : List Char)
    (transport : TransportResult) : Outcome × ℕ × Option (List Char) :=
  if !validate_metadata artist title then (.rejected, 0, none)
  else
    let timestamp := get_current_timestamp tzdb utcnow timezone now
    let url := build_url api_endpoint rpuid artist title timestamp
    match transport with
    | .transportError => (.failed, 1, some url)
    | .response s =>
      if raise_for_status s then (.failed, 1, some url)
      else (.delivered, 1, some url)

/-- A watchdog filesystem event as seen by
`FileChangeHandler.on_modified`: directory flag, source path, and the
value of `time.time()` (seconds) when the event is handled. -/
structure FsEvent where
  is_directory : Bool
  src_path : String
  time : ℚ
deriving DecidableEq

/-- The filtering and debouncing part of
`FileChangeHandler.on_modified`: given the watched path and the
current `self.last_modified`, returns the updated `last_modified` and
whether `_process_file_change` runs.  Directory events and events for
other paths are ignored; an event closer than 1 second (the debounce
window) to the last accepted one is discarded; otherwise the event is
accepted and the timestamp updated. -/
def on_modified (file_path : String) (last_modified : ℚ) (e : FsEvent) :
    ℚ × Bool :=
  if e.is_directory then (last_modified, false)
  else if e.src_path ≠ file_path then (last_modified, false)
  else if e.time - last_modified < 1 then (last_modified, false)
  else (e.time, true)

/-- The times of the events a sequence of `on_modified` calls actually
processes, threading `last_modified` through. -/
def acceptedTimes (file_path : String) : ℚ → List FsEvent → List ℚ
  | _, [] => []
  | st, e :: es =>
    let r := on_modified file_path st e
    if r.2 then e.time :: acceptedTimes file_path r.1 es
    else acceptedTimes file_path r.1 es

/-- What one run of the body of
`FileChangeHandler._process_file_change` does. -/
inductive HandlerStep where
  | reported (o : Outcome)
  | skippedNoMetadata
  | errorLogged
  | propagated (e : PyExn)
deriving DecidableEq

/-- The `try` body of `FileChangeHandler._process_file_change`
(likewise the body of `RadioPlayerMonitor._process_initial_file`):
parse the file, and when the `artist and title` guard holds, post; a
parse exception, or an exception from the post call, escapes the body.
The parse outcome and the reporter are passed in explicitly. -/
def handlerBody (parsed : Except PyExn (Option (List Char) × Option (List Char)))
    (post : List Char → List Char → Except PyExn Outcome) :
    Except PyExn HandlerStep :=
  match parsed with
  | .error e => .error e
  | .ok p =>
    match p with
    | (some a, some t) =>
      if !a.isEmpty && !t.isEmpty then (post a t).map HandlerStep.reported
      else .ok .skippedNoMetadata
    | _ => .ok .skippedNoMetadata

/-- `FileChangeHandler._process_file_change`: the body wrapped in
`try / except Exception`, so every exception of the body is caught and
logged at the handler boundary instead of escaping. -/
def process_file_change
    (parsed : Except PyExn (Option (List Char) × Option (List Char)))
    (post : List Char → List Char → Except PyExn Outcome) : HandlerStep :=
  match handlerBody parsed post with
  | .ok r => r
  | .error _ => .errorLogged

/-- One filesystem event together with the behaviour of the world when
it is processed: the parse outcome of the watched file at that moment
and the reporter's behaviour. -/
structure TraceEntry where
  ev : FsEvent
  parsed : Except PyExn (Option (List Char) × Option (List Char))
  post : List Char → List Char → Except PyExn Outcome

/-- The watch loop while the observer is running: each event goes
through `on_modified`; accepted events run `_process_file_change`.
Returns the handler steps of the accepted events in order. -/
def runLoop (file_path : String) : ℚ → List TraceEntry → List HandlerStep
  | _, [] => []
  | st, entry :: rest =>
    let r := on_modified file_path st entry.ev
    if r.2 then
      process_file_change entry.parsed entry.post ::
        runLoop file_path r.1 rest
    else runLoop file_path r.1 rest

/-- `RadioPlayerMonitor._process_initial_file`: parse the file once
and, when the `artist and title` guard holds, call
`post_now_playing`; any exception is caught and logged.  Returns the
outcome of the one report attempt, or `none` when no attempt is made.
The tz/clock/endpoint context of the API client is passed through. -/
def process_initial_file
    (parsed : Except PyExn (Option (List Char) × Option (List Char)))
    (tzdb : List Char → Option (ℕ → PyDateTime)) (utcnow : ℕ → PyDateTime)
    (timezone : List Char) (now : ℕ) (api_endpoint : List Char) (rpuid : ℕ)
    (transport : TransportResult) : Option (Outcome × ℕ × Option (List Char)) :=
  match parsed with
  | .error _ => none
  | .ok p =>
    match p with
    | (some a, some t) =>
      if !a.isEmpty && !t.isEmpty then
        some (post_now_playing tzdb utcnow timezone now api_endpoint rpuid
          a t transport)
      else none
    | _ => none

/-- `RadioPlayerMonitor.start_monitoring`: when the watched file does
not exist, raise before any processing; otherwise run
`_process_initial_file` synchronously (before the observer is
started), then start the observer and handle the subsequent events.
Returns the initial report attempt (if any) and the handler steps of
the watch loop. -/
def start_monitoring (fileExists : Bool)
    (readResult : Except PyExn (List Char))
    (tzdb : List Char → Option (ℕ → PyDateTime)) (utcnow : ℕ → PyDateTime)
    (timezone : List Char) (now : ℕ) (api_endpoint : List Char) (rpuid : ℕ)
    (transport : TransportResult) (file_path : String)
    (events : List TraceEntry) :
    Option (Outcome × ℕ × Option (List Char)) × List HandlerStep :=
  if !fileExists then (none, [])
  else
    (process_initial_file (parse_file fileExists readResult) tzdb utcnow
        timezone now api_endpoint rpuid transport,
      runLoop file_path 0 events)

/-- Checker for the regular expression
`\d{4}-\d{2}-\d{2}T\d{2}:\d{2}:\d{2}` against a whole string. -/
def tsPatternCheck : List Char → Bool
  | [y1, y2, y3, y4, s1, mo1, mo2, s2, d1, d2, s3, h1, h2, s4, mi1, mi2,
      s5, se1, se2] =>
    y1.isDigit && y2.isDigit && y3.isDigit && y4.isDigit && s1 = '-' &&
      mo1.isDigit && mo2.isDigit && s2 = '-' && d1.isDigit && d2.isDigit &&
      s3 = 'T' && h1.isDigit && h2.isDigit && s4 = ':' && mi1.isDigit &&
      mi2.isDigit && s5 = ':' && se1.isDigit && se2.isDigit
  | _ => false

/-! Characterisation of `extract_metadata`: the fold keeps, for each
field, the stripped capture of the last matching line. -/

lemma labelRest_cons_elim {p : Char} {ps line r : List Char}
    (h : labelRest (p :: ps) line = some r) :
    ∃ c cs, line = c :: cs ∧ c.toLower = p.toLower := by
  cases line with
  | nil => simp [labelRest] at h
  | cons c cs =>
    by_cases hc : c.toLower = p.toLower
    · exact ⟨c, cs, rfl, hc⟩
    · simp [labelRest, hc] at h

lemma labelRest_cons_ne {p c : Char} {ps cs : List Char}
    (hc : ¬ c.toLower = p.toLower) : labelRest (p :: ps) (c :: cs) = none := by
  simp [labelRest, hc]

/-- A line matched by the artist pattern is not matched by the title
pattern (the labels differ at their first character). -/
lemma titleMatch_eq_none_of_artistMatch {line v : List Char}
    (h : artistMatch line = some v) : titleMatch line = none := by
  unfold artistMatch patMatch at h
  cases hl : labelRest ARTIST_LABEL line with
  | none => rw [hl] at h; simp at h
  | some r =>
    rw [show ARTIST_LABEL = 'A' :: "rtist: ".toList from rfl] at hl
    obtain ⟨c, cs, rfl, hc⟩ := labelRest_cons_elim hl
    have hct : ¬ c.toLower = 'T'.toLower := by rw [hc]; decide
    unfold titleMatch patMatch
    rw [show TITLE_LABEL = 'T' :: "itle: ".toList from rfl,
      labelRest_cons_ne hct]

lemma extract_step_fst (st : Option (List Char) × Option (List Char))
    (l : List Char) : (extract_step st l).1 = (artistValOf l).or st.1 := by
  cases hs : pyStrip l with
  | nil => simp [extract_step, artistValOf, hs, artistMatch, patMatch,
      ARTIST_LABEL, labelRest]
  | cons c cs =>
    cases hm : artistMatch (c :: cs) with
    | some v => simp [extract_step, artistValOf, hs, hm]
    | none =>
      cases ht : titleMatch (c :: cs) <;>
        simp [extract_step, artistValOf, hs, hm, ht]

lemma extract_step_snd (st : Option (List Char) × Option (List Char))
    (l : List Char) : (extract_step st l).2 = (titleValOf l).or st.2 := by
  cases hs : pyStrip l with
  | nil => simp [extract_step, titleValOf, hs, titleMatch, patMatch,
      TITLE_LABEL, labelRest]
  | cons c cs =>
    cases hm : artistMatch (c :: cs) with
    | some v =>
      have := titleMatch_eq_none_of_artistMatch hm
      simp [extract_step, titleValOf, hs, hm, this]
    | none =>
      cases ht : titleMatch (c :: cs) <;>
        simp [extract_step, titleValOf, hs, hm, ht]

lemma getLast?_cons_or {α : Type} (v : α) (vs : List α) (d : Option α) :
    ((v :: vs).getLast?).or d = (vs.getLast?).or (some v) := by
  cases vs with
  | nil => simp
  | cons w ws =>
    rw [List.getLast?_cons_cons]
    cases h : (w :: ws).getLast? with
    | none => simp at h
    | some u => simp

lemma foldl_extract (lines : List (List Char)) :
    ∀ st, lines.foldl extract_step st =
      (((lines.filterMap artistValOf).getLast?).or st.1,
       ((lines.filterMap titleValOf).getLast?).or st.2) := by
  induction lines with
  | nil => intro st; simp
  | cons l ls ih =>
    intro st
    rw [List.foldl_cons, ih]
    refine Prod.ext ?_ ?_
    · rw [extract_step_fst]
      cases hv : artistValOf l with
      | none => simp [List.filterMap_cons_none hv]
      | some v => rw [List.filterMap_cons_some hv, getLast?_cons_or]; simp
    · rw [extract_step_snd]
      cases hv : titleValOf l with
      | none => simp [List.filterMap_cons_none hv]
      | some v => rw [List.filterMap_cons_some hv, getLast?_cons_or]; simp

/-- `_extract_metadata` returns, for each field, the stripped capture
group of the last line matching that field's pattern (`none` when no
line matches). -/
lemma extract_metadata_eq (content : List Char) :
    extract_metadata content =
      (((splitlines content).filterMap artistValOf).getLast?,
       ((splitlines content).filterMap titleValOf).getLast?) := by
  unfold extract_metadata
  rw [foldl_extract]
  simp

/-- Claim C1, amended.  For every text input in which at least one of
the labels `Artist:` or `Title:` has no matching line, the
corresponding component of the result of `_extract_metadata` is
absent, so the pair fails the callers' `artist and title` guard and
nothing is reported — but the extractor may return a partially
populated pair (one field set, the other `None`) rather than absence
for the whole result. -/
theorem c1_missing_label_not_reported (content : List Char)
    (h : (splitlines content).filterMap artistValOf = [] ∨
      (splitlines content).filterMap titleValOf = []) :
    ((extract_metadata content).1 = none ∨
      (extract_metadata content).2 = none) ∧
    bothPresent (extract_metadata content) = false := by
  rw [extract_metadata_eq]
  rcases h with h | h
  · rw [h]
    refine ⟨Or.inl rfl, ?_⟩
    cases ((splitlines content).filterMap titleValOf).getLast? <;> rfl
  · rw [h]
    refine ⟨Or.inr rfl, ?_⟩
    cases ((splitlines content).filterMap artistValOf).getLast? <;> rfl

theorem c1_missing_label_not_reported_witness :
    ((splitlines ("Artist: Queen".toList)).filterMap artistValOf = [] ∨
      (splitlines ("Artist: Queen".toList)).filterMap titleValOf = []) ∧
    (((extract_metadata ("Artist: Queen".toList)).1 = none ∨
      (extract_metadata ("Artist: Queen".toList)).2 = none) ∧
    bothPresent (extract_metadata ("Artist: Queen".toList)) = false) :=
  ⟨Or.inr (by decide),
    c1_missing_label_not_reported ("Artist: Queen".toList) (Or.inr (by decide))⟩

/-- Claim C1, counterexample to the claim as stated: the input
`"Artist: Queen"` has no line matching the `Title:` label, yet
`_extract_metadata` returns the partially populated pair
`(some "Queen", none)` — one populated field — not absence for the
whole result. -/
theorem c1_partial_pair_counterexample :
    extract_metadata ("Artist: Queen".toList) =
      (some ("Queen".toList), none) ∧
    ¬ ((extract_metadata ("Artist: Queen".toList)).1 = none ∧
      (extract_metadata ("Artist: Queen".toList)).2 = none) := by decide

/-- Claim C3.  For every text input containing at least one line
matching the `Artist:` label and at least one matching the `Title:`
label (matching is case-insensitive), `_extract_metadata` returns the
trimmed capture of the last matching line for each label: stated via
`getLast?` over the matching lines' stripped captures in file order. -/
theorem c3_last_match_wins (content va vt : List Char)
    (hA : ((splitlines content).filterMap artistValOf).getLast? = some va)
    (hT : ((splitlines content).filterMap titleValOf).getLast? = some vt) :
    extract_metadata content = (some va, some vt) := by
  rw [extract_metadata_eq, hA, hT]

theorem c3_last_match_wins_witness :
    (((splitlines ("artist: A\nArtist: B\ntitle: X\nTitle: Y".toList)).filterMap
      artistValOf).getLast? = some ("B".toList)) ∧
    (((splitlines ("artist: A\nArtist: B\ntitle: X\nTitle: Y".toList)).filterMap
      titleValOf).getLast? = some ("Y".toList)) ∧
    extract_metadata ("artist: A\nArtist: B\ntitle: X\nTitle: Y".toList) =
      (some ("B".toList), some ("Y".toList)) :=
  ⟨by decide, by decide,
    c3_last_match_wins ("artist: A\nArtist: B\ntitle: X\nTitle: Y".toList)
      ("B".toList) ("Y".toList) (by decide) (by decide)⟩

lemma validate_metadata_eq_false {artist title : List Char}
    (h : pyStrip artist = [] ∨ pyStrip title = []) :
    validate_metadata artist title = false := by
  unfold validate_metadata
  by_cases h1 : artist.isEmpty || title.isEmpty
  · simp [h1]
  · rcases h with h | h <;> simp [h1, h]

/-- Claim C4.  For every (artist, title) pair in which at least one
field is empty after trimming whitespace, `post_now_playing` takes the
validation early return — outcome `rejected`, zero HTTP requests, no
URL ever built. -/
theorem c4_blank_rejected_no_network
    (tzdb : List Char → Option (ℕ → PyDateTime)) (utcnow : ℕ → PyDateTime)
    (timezone : List Char) (now : ℕ) (api_endpoint : List Char) (rpuid : ℕ)
    (artist title : List Char) (transport : TransportResult)
    (h : pyStrip artist = [] ∨ pyStrip title = []) :
    post_now_playing tzdb utcnow timezone now api_endpoint rpuid artist title
      transport = (Outcome.rejected, 0, none) := by
  simp [post_now_playing, validate_metadata_eq_false h]

theorem c4_blank_rejected_no_network_witness :
    (pyStrip ("  ".toList) = [] ∨ pyStrip ("Song".toList) = []) ∧
    post_now_playing (fun _ => none) (fun _ => ⟨2024, 1, 1, 0, 0, 0⟩)
      ("UTC".toList) 0 ("https://e".toList) 7 ("  ".toList) ("Song".toList)
      (TransportResult.response 200) = (Outcome.rejected, 0, none) :=
  ⟨Or.inl (by decide),
    c4_blank_rejected_no_network (fun _ => none)
      (fun _ => ⟨2024, 1, 1, 0, 0, 0⟩) ("UTC".toList) 0 ("https://e".toList) 7
      ("  ".toList) ("Song".toList) (TransportResult.response 200)
      (Or.inl (by decide))⟩

/-- Claim C5, amended.  Delivery is a single attempt: for validated
metadata exactly one HTTP request is made, a transport error or
timeout yields `failed` as a returned value (the exception is caught
and swallowed), a 4xx/5xx status makes `raise_for_status` raise and
likewise yields `failed`, and a 2xx status yields `delivered` — but a
non-2xx status outside 400–599 (e.g. a 304) does not raise and also
yields `delivered`, since the code only checks `raise_for_status`. -/
theorem c5_single_attempt_classification
    (tzdb : List Char → Option (ℕ → PyDateTime)) (utcnow : ℕ → PyDateTime)
    (timezone : List Char) (now : ℕ) (api_endpoint : List Char) (rpuid : ℕ)
    (artist title : List Char) (s4 s2 : ℕ)
    (hv : validate_metadata artist title = true)
    (h4a : 400 ≤ s4) (h4b : s4 < 600) (h2a : 200 ≤ s2) (h2b : s2 < 300) :
    (post_now_playing tzdb utcnow timezone now api_endpoint rpuid artist title
        TransportResult.transportError).1 = Outcome.failed ∧
    (post_now_playing tzdb utcnow timezone now api_endpoint rpuid artist title
        TransportResult.transportError).2.1 = 1 ∧
    (post_now_playing tzdb utcnow timezone now api_endpoint rpuid artist title
        (TransportResult.response s4)).1 = Outcome.failed ∧
    (post_now_playing tzdb utcnow timezone now api_endpoint rpuid artist title
        (TransportResult.response s4)).2.1 = 1 ∧
    (post_now_playing tzdb utcnow timezone now api_endpoint rpuid artist title
        (TransportResult.response s2)).1 = Outcome.delivered ∧
    (post_now_playing tzdb utcnow timezone now api_endpoint rpuid artist title
        (TransportResult.response s2)).2.1 = 1 := by
  have hs4 : raise_for_status s4 = true := by
    simp only [raise_for_status, decide_eq_true_eq]
    omega
  have hs2 : raise_for_status s2 = false := by
    simp only [raise_for_status, decide_eq_false_iff_not]
    omega
  refine ⟨?_, ?_, ?_, ?_, ?_, ?_⟩ <;>
    simp [post_now_playing, hv, hs4, hs2]

theorem c5_single_attempt_classification_witness :
    validate_metadata ("Queen".toList) ("Song".toList) = true ∧
    400 ≤ 500 ∧ 500 < 600 ∧ 200 ≤ 204 ∧ 204 < 300 ∧
    ((post_now_playing (fun _ => none) (fun _ => ⟨2024, 1, 1, 0, 0, 0⟩)
        ("UTC".toList) 0 ("https://e".toList) 7 ("Queen".toList)
        ("Song".toList) TransportResult.transportError).1 = Outcome.failed ∧
    (post_now_playing (fun _ => none) (fun _ => ⟨2024, 1, 1, 0, 0, 0⟩)
        ("UTC".toList) 0 ("https://e".toList) 7 ("Queen".toList)
        ("Song".toList) TransportResult.transportError).2.1 = 1 ∧
    (post_now_playing (fun _ => none) (fun _ => ⟨2024, 1, 1, 0, 0, 0⟩)
        ("UTC".toList) 0 ("https://e".toList) 7 ("Queen".toList)
        ("Song".toList) (TransportResult.response 500)).1 = Outcome.failed ∧
    (post_now_playing (fun _ => none) (fun _ => ⟨2024, 1, 1, 0, 0, 0⟩)
        ("UTC".toList) 0 ("https://e".toList) 7 ("Queen".toList)
        ("Song".toList) (TransportResult.response 500)).2.1 = 1 ∧
    (post_now_playing (fun _ => none) (fun _ => ⟨2024, 1, 1, 0, 0, 0⟩)
        ("UTC".toList) 0 ("https://e".toList) 7 ("Queen".toList)
        ("Song".toList) (TransportResult.response 204)).1 = Outcome.delivered ∧
    (post_now_playing (fun _ => none) (fun _ => ⟨2024, 1, 1, 0, 0, 0⟩)
        ("UTC".toList) 0 ("https://e".toList) 7 ("Queen".toList)
        ("Song".toList) (TransportResult.response 204)).2.1 = 1) :=
  ⟨by decide, by decide, by decide, by decide, by decide,
    c5_single_attempt_classification (fun _ => none)
      (fun _ => ⟨2024, 1, 1, 0, 0, 0⟩) ("UTC".toList) 0 ("https://e".toList) 7
      ("Queen".toList) ("Song".toList) 500 204 (by decide) (by decide)
      (by decide) (by decide) (by decide)⟩

/-- Claim C5, counterexample to the claim as stated: a final HTTP
status of 304 is not a 2xx response, yet `raise_for_status` does not
raise for it, so `post_now_playing` returns `True` — the outcome is
`delivered`, not `failed` as the claim requires for every non-2xx
status. -/
theorem c5_non2xx_delivered_counterexample :
    (post_now_playing (fun _ => none) (fun _ => ⟨2024, 1, 1, 0, 0, 0⟩)
        ("UTC".toList) 0 ("https://e".toList) 7 ("Queen".toList)
        ("Song".toList) (TransportResult.response 304)).1 =
      Outcome.delivered ∧
    ¬ (200 ≤ 304 ∧ 304 < 300) ∧
    (post_now_playing (fun _ => none) (fun _ => ⟨2024, 1, 1, 0, 0, 0⟩)
        ("UTC".toList) 0 ("https://e".toList) 7 ("Queen".toList)
        ("Song".toList) (TransportResult.response 304)).1 ≠
      Outcome.failed := by decide

/-- Claim C2, amended.  The startup pass of `start_monitoring` runs
before the observer is started and is independent of any subsequent
filesystem event; it performs at most one report attempt, and exactly
one — the `post_now_playing` call on the extracted pair, yielding
Delivered, Rejected or Failed — precisely when `parse_file` returns a
pair passing the `artist and title` guard.  When extraction yields
absence or a blank field, or parsing raises, no report attempt is made
at startup. -/
theorem c2_startup_single_report (fileExists : Bool)
    (readResult : Except PyExn (List Char))
    (tzdb : List Char → Option (ℕ → PyDateTime)) (utcnow : ℕ → PyDateTime)
    (timezone : List Char) (now : ℕ) (api_endpoint : List Char) (rpuid : ℕ)
    (transport : TransportResult) (file_path : String)
    (events events' : List TraceEntry) (a t : List Char)
    (h : parse_file fileExists readResult = Except.ok (some a, some t))
    (ha : a.isEmpty = false) (ht : t.isEmpty = false) :
    (start_monitoring fileExists readResult tzdb utcnow timezone now
        api_endpoint rpuid transport file_path events).1 =
      (start_monitoring fileExists readResult tzdb utcnow timezone now
        api_endpoint rpuid transport file_path events').1 ∧
    (start_monitoring fileExists readResult tzdb utcnow timezone now
        api_endpoint rpuid transport file_path events).1 =
      some (post_now_playing tzdb utcnow timezone now api_endpoint rpuid
        a t transport) := by
  cases fileExists with
  | false => simp [parse_file] at h
  | true =>
    constructor
    · rfl
    · simp [start_monitoring, process_initial_file, h, ha, ht]

theorem c2_startup_single_report_witness :
    parse_file true (Except.ok ("Artist: Queen\nTitle: Song".toList)) =
      Except.ok (some ("Queen".toList), some ("Song".toList)) ∧
    ("Queen".toList).isEmpty = false ∧ ("Song".toList).isEmpty = false ∧
    ((start_monitoring true (Except.ok ("Artist: Queen\nTitle: Song".toList))
        (fun _ => none) (fun _ => ⟨2024, 1, 1, 0, 0, 0⟩) ("UTC".toList) 0
        ("https://e".toList) 7 (TransportResult.response 200) ("f")
        []).1 =
      (start_monitoring true (Except.ok ("Artist: Queen\nTitle: Song".toList))
        (fun _ => none) (fun _ => ⟨2024, 1, 1, 0, 0, 0⟩) ("UTC".toList) 0
        ("https://e".toList) 7 (TransportResult.response 200) ("f")
        [⟨⟨false, "f", 5⟩, Except.ok (none, none),
          fun _ _ => Except.ok Outcome.delivered⟩]).1 ∧
    (start_monitoring true (Except.ok ("Artist: Queen\nTitle: Song".toList))
        (fun _ => none) (fun _ => ⟨2024, 1, 1, 0, 0, 0⟩) ("UTC".toList) 0
        ("https://e".toList) 7 (TransportResult.response 200) ("f")
        []).1 =
      some (post_now_playing (fun _ => none) (fun _ => ⟨2024, 1, 1, 0, 0, 0⟩)
        ("UTC".toList) 0 ("https://e".toList) 7 ("Queen".toList)
        ("Song".toList) (TransportResult.response 200))) :=
  ⟨by rfl, by decide, by decide,
    c2_startup_single_report true
      (Except.ok ("Artist: Queen\nTitle: Song".toList)) (fun _ => none)
      (fun _ => ⟨2024, 1, 1, 0, 0, 0⟩) ("UTC".toList) 0 ("https://e".toList) 7
      (TransportResult.response 200) ("f")
      []
      [⟨⟨false, "f", 5⟩, Except.ok (none, none),
        fun _ _ => Except.ok Outcome.delivered⟩]
      ("Queen".toList) ("Song".toList) (by rfl) (by decide) (by decide)⟩

/-- Claim C2, counterexample to the claim as stated: for an initial
file whose content is empty, extraction yields absence, the
`artist and title` guard fails, and startup performs zero report
attempts — not exactly one for every initial file content. -/
theorem c2_zero_attempts_counterexample :
    (start_monitoring true (Except.ok ([] : List Char)) (fun _ => none)
        (fun _ => ⟨2024, 1, 1, 0, 0, 0⟩) ("UTC".toList) 0 ("https://e".toList)
        7 TransportResult.transportError ("f") []).1 = none ∧
    ((start_monitoring true (Except.ok ([] : List Char)) (fun _ => none)
        (fun _ => ⟨2024, 1, 1, 0, 0, 0⟩) ("UTC".toList) 0 ("https://e".toList)
        7 TransportResult.transportError ("f") []).1).isSome = false := by
  decide

/-- Claim C6.  For modification events on the watched path: an event
whose elapsed time since the last accepted event is below the 1-second
(1000 ms) debounce window is discarded with no processing and no state
change; an event at or beyond the window is accepted, updates
`last_modified`, and is processed.  Two eligible events closer than
the window yield exactly one processed event (the first); two farther
apart than the window yield two. -/
theorem c6_debounce (file_path : String) (st : ℚ) (e0 e1 e2 ex : FsEvent)
    (hd0 : e0.is_directory = false) (hp0 : e0.src_path = file_path)
    (hd1 : e1.is_directory = false) (hp1 : e1.src_path = file_path)
    (hd2 : e2.is_directory = false) (hp2 : e2.src_path = file_path)
    (hdx : ex.is_directory = false) (hpx : ex.src_path = file_path)
    (h0 : 1 ≤ e0.time - st) (hx : ex.time - st < 1)
    (h1 : e1.time - e0.time < 1) (h2 : 1 ≤ e2.time - e0.time) :
    on_modified file_path st ex = (st, false) ∧
    on_modified file_path st e0 = (e0.time, true) ∧
    acceptedTimes file_path st [e0, e1] = [e0.time] ∧
    acceptedTimes file_path st [e0, e2] = [e0.time, e2.time] := by
  have ox : on_modified file_path st ex = (st, false) := by
    simp [on_modified, hdx, hpx, hx]
  have o0 : on_modified file_path st e0 = (e0.time, true) := by
    simp [on_modified, hd0, hp0, not_lt.mpr h0]
  have o1 : on_modified file_path e0.time e1 = (e0.time, false) := by
    simp [on_modified, hd1, hp1, h1]
  have o2 : on_modified file_path e0.time e2 = (e2.time, true) := by
    simp [on_modified, hd2, hp2, not_lt.mpr h2]
  refine ⟨ox, o0, ?_, ?_⟩ <;> simp [acceptedTimes, o0, o1, o2]

theorem c6_debounce_witness :
    ((⟨false, "f", 2⟩ : FsEvent).is_directory = false) ∧
    ((⟨false, "f", 2⟩ : FsEvent).src_path = "f") ∧
    (1 ≤ (⟨false, "f", 2⟩ : FsEvent).time - (0 : ℚ)) ∧
    ((⟨false, "f", 5/2⟩ : FsEvent).time - (⟨false, "f", 2⟩ : FsEvent).time < 1) ∧
    (1 ≤ (⟨false, "f", 7/2⟩ : FsEvent).time - (⟨false, "f", 2⟩ : FsEvent).time) ∧
    ((⟨false, "f", 1/2⟩ : FsEvent).time - (0 : ℚ) < 1) ∧
    on_modified ("f") 0 ⟨false, "f", 1/2⟩ = (0, false) ∧
    on_modified ("f") 0 ⟨false, "f", 2⟩ = (2, true) ∧
    acceptedTimes ("f") 0 [⟨false, "f", 2⟩, ⟨false, "f", 5/2⟩] = [2] ∧
    acceptedTimes ("f") 0 [⟨false, "f", 2⟩, ⟨false, "f", 7/2⟩] = [2, 7/2] := by
  have h := c6_debounce ("f") 0 ⟨false, "f", 2⟩ ⟨false, "f", 5/2⟩
    ⟨false, "f", 7/2⟩ ⟨false, "f", 1/2⟩ rfl rfl rfl rfl rfl rfl rfl rfl
    (by norm_num) (by norm_num) (by norm_num) (by norm_num)
  exact ⟨rfl, rfl, by norm_num, by norm_num, by norm_num, by norm_num,
    h.1, h.2.1, h.2.2.1, h.2.2.2⟩

lemma handlerBody_ok_cases
    {parsed : Except PyExn (Option (List Char) × Option (List Char))}
    {post : List Char → List Char → Except PyExn Outcome} {r : HandlerStep}
    (h : handlerBody parsed post = Except.ok r) :
    (∃ o, r = HandlerStep.reported o) ∨ r = HandlerStep.skippedNoMetadata := by
  cases parsed with
  | error e => simp [handlerBody] at h
  | ok p =>
    obtain ⟨a?, t?⟩ := p
    cases a? with
    | none => simp [handlerBody] at h; right; exact h.symm
    | some a =>
      cases t? with
      | none => simp [handlerBody] at h; right; exact h.symm
      | some t =>
        by_cases hg : (!a.isEmpty && !t.isEmpty) = true
        · cases hp : post a t with
          | error e => simp [handlerBody, hg, hp, Except.map] at h
          | ok o =>
            simp [handlerBody, hg, hp, Except.map] at h
            left
            exact ⟨o, h.symm⟩
        · simp [handlerBody, hg] at h; right; exact h.symm

/-- Claim C9.  For every accepted change event, every exception of the
event-handling body — a parse error, or an error raised by the
reporter — is caught at the `try / except Exception` boundary of
`_process_file_change` and never leaves the handler (`propagated` is
unreachable); a parse exception yields a logged error; and the watch
loop continues: the steps taken for the remaining events do not depend
on the current event's parse outcome or reporter behaviour. -/
theorem c9_failure_isolation (file_path : String) (st : ℚ) (ev : FsEvent)
    (parsed : Except PyExn (Option (List Char) × Option (List Char)))
    (post : List Char → List Char → Except PyExn Outcome)
    (rest : List TraceEntry) (ex : PyExn) :
    process_file_change parsed post ≠ HandlerStep.propagated ex ∧
    process_file_change (Except.error ex) post = HandlerStep.errorLogged ∧
    runLoop file_path st (⟨ev, parsed, post⟩ :: rest) =
      (if (on_modified file_path st ev).2
        then [process_file_change parsed post] else []) ++
        runLoop file_path (on_modified file_path st ev).1 rest := by
  refine ⟨?_, rfl, ?_⟩
  · unfold process_file_change
    cases h : handlerBody parsed post with
    | error e => simp
    | ok r =>
      rcases handlerBody_ok_cases h with ⟨o, rfl⟩ | rfl <;> simp
  · simp only [runLoop]
    cases h : (on_modified file_path st ev).2 <;> simp [h]

lemma digitChar_isDigit (n : ℕ) : (digitChar n).isDigit = true := by
  unfold digitChar
  have h : n % 10 < 10 := Nat.mod_lt _ (by norm_num)
  set k := n % 10 with hk
  interval_cases k <;> decide

lemma tsPatternCheck_strftimeTs (dt : PyDateTime) :
    tsPatternCheck (strftimeTs dt) = true := by
  simp [strftimeTs, pad4, pad2, tsPatternCheck, digitChar_isDigit]

/-- Claim C7.  For the file content
`"Artist: Queen\nTitle: Bohemian Rhapsody\n"`, extraction yields
artist `Queen` and title `Bohemian Rhapsody`; the URL built by
`_build_url` is the endpoint followed by the query
`?rpuid=…&startTime=…&title=Bohemian+Rhapsody&artist=Queen` — the
values `quote_plus`-encoded, spaces as `+` — and for every valid
`datetime` in the `strftime` range the `startTime` value matches
`\d{4}-\d{2}-\d{2}T\d{2}:\d{2}:\d{2}`. -/
theorem c7_end_to_end (api_endpoint : List Char) (rpuid : ℕ)
    (dt : PyDateTime) (_hy1 : 1000 ≤ dt.year) (_hy2 : dt.year ≤ 9999)
    (_hmo : dt.month ≤ 12) (_hd : dt.day ≤ 31) (_hh : dt.hour ≤ 23)
    (_hmi : dt.minute ≤ 59) (_hs : dt.second ≤ 59) :
    extract_metadata ("Artist: Queen\nTitle: Bohemian Rhapsody\n".toList) =
      (some ("Queen".toList), some ("Bohemian Rhapsody".toList)) ∧
    build_url api_endpoint rpuid ("Queen".toList)
        ("Bohemian Rhapsody".toList) (strftimeTs dt) =
      api_endpoint ++ ("?rpuid=".toList) ++ (Nat.repr rpuid).toList ++
        ("&startTime=".toList) ++ strftimeTs dt ++
        ("&title=Bohemian+Rhapsody&artist=Queen".toList) ∧
    tsPatternCheck (strftimeTs dt) = true := by
  refine ⟨by decide, ?_, tsPatternCheck_strftimeTs dt⟩
  have hq : quote_plus ("Queen".toList) = "Queen".toList := by decide
  have hb : quote_plus ("Bohemian Rhapsody".toList) =
      "Bohemian+Rhapsody".toList := by decide
  have hsplit : ("&title=Bohemian+Rhapsody&artist=Queen".toList) =
      ("&title=".toList) ++ ("Bohemian+Rhapsody".toList) ++
        ("&artist=".toList) ++ ("Queen".toList) := by decide
  rw [build_url, hq, hb, hsplit]
  simp [List.append_assoc]

theorem c7_end_to_end_witness :
    1000 ≤ (⟨2024, 6, 1, 12, 30, 45⟩ : PyDateTime).year ∧
    (⟨2024, 6, 1, 12, 30, 45⟩ : PyDateTime).year ≤ 9999 ∧
    (⟨2024, 6, 1, 12, 30, 45⟩ : PyDateTime).month ≤ 12 ∧
    (⟨2024, 6, 1, 12, 30, 45⟩ : PyDateTime).day ≤ 31 ∧
    (⟨2024, 6, 1, 12, 30, 45⟩ : PyDateTime).hour ≤ 23 ∧
    (⟨2024, 6, 1, 12, 30, 45⟩ : PyDateTime).minute ≤ 59 ∧
    (⟨2024, 6, 1, 12, 30, 45⟩ : PyDateTime).second ≤ 59 ∧
    (extract_metadata ("Artist: Queen\nTitle: Bohemian Rhapsody\n".toList) =
      (some ("Queen".toList), some ("Bohemian Rhapsody".toList)) ∧
    build_url ("https://api.example/ingest".toList) 1234 ("Queen".toList)
        ("Bohemian Rhapsody".toList)
        (strftimeTs ⟨2024, 6, 1, 12, 30, 45⟩) =
      ("https://api.example/ingest".toList) ++ ("?rpuid=".toList) ++
        (Nat.repr 1234).toList ++ ("&startTime=".toList) ++
        strftimeTs ⟨2024, 6, 1, 12, 30, 45⟩ ++
        ("&title=Bohemian+Rhapsody&artist=Queen".toList) ∧
    tsPatternCheck (strftimeTs ⟨2024, 6, 1, 12, 30, 45⟩) = true) :=
  ⟨by decide, by decide, by decide, by decide, by decide, by decide, by decide,
    c7_end_to_end ("https://api.example/ingest".toList) 1234
      ⟨2024, 6, 1, 12, 30, 45⟩ (by decide) (by decide) (by decide) (by decide)
      (by decide) (by decide) (by decide)⟩

/-- Claim C8.  For every configured timezone identifier: when the
identifier is recognised by the timezone database, the report
timestamp is the current time localised to that zone; when it is
unrecognised, `pytz.timezone` raises `UnknownTimeZoneError`, the
handler catches it, and the timestamp falls back to the current UTC
time (with a logged warning).  The report attempt then proceeds
normally: outcome and number of HTTP requests of `post_now_playing`
are the same as with a recognised zone — an unknown timezone never
produces an error outcome and never raises. -/
theorem c8_timezone_fallback
    (tzdbU tzdbK : List Char → Option (ℕ → PyDateTime))
    (utcnow conv : ℕ → PyDateTime) (timezone : List Char) (now : ℕ)
    (api_endpoint : List Char) (rpuid : ℕ) (artist title : List Char)
    (transport : TransportResult)
    (hU : tzdbU timezone = none) (hK : tzdbK timezone = some conv) :
    get_current_timestamp tzdbU utcnow timezone now =
      strftimeTs (utcnow now) ∧
    get_current_timestamp tzdbK utcnow timezone now =
      strftimeTs (conv now) ∧
    (post_now_playing tzdbU utcnow timezone now api_endpoint rpuid artist
        title transport).1 =
      (post_now_playing tzdbK utcnow timezone now api_endpoint rpuid artist
        title transport).1 ∧
    (post_now_playing tzdbU utcnow timezone now api_endpoint rpuid artist
        title transport).2.1 =
      (post_now_playing tzdbK utcnow timezone now api_endpoint rpuid artist
        title transport).2.1 := by
  have key :
      (post_now_playing tzdbU utcnow timezone now api_endpoint rpuid artist
        title transport).1 =
      (post_now_playing tzdbK utcnow timezone now api_endpoint rpuid artist
        title transport).1 ∧
      (post_now_playing tzdbU utcnow timezone now api_endpoint rpuid artist
        title transport).2.1 =
      (post_now_playing tzdbK utcnow timezone now api_endpoint rpuid artist
        title transport).2.1 := by
    cases hvb : validate_metadata artist title with
    | false => simp [post_now_playing, hvb]
    | true =>
      cases transport with
      | transportError => simp [post_now_playing, hvb]
      | response s =>
        cases hr : raise_for_status s <;> simp [post_now_playing, hvb, hr]
  exact ⟨by simp [get_current_timestamp, hU],
    by simp [get_current_timestamp, hK], key.1, key.2⟩

theorem c8_timezone_fallback_witness :
    ((fun _ => none) : List Char → Option (ℕ → PyDateTime))
        ("Mars/Olympus".toList) = none ∧
    ((fun _ => some (fun _ => ⟨2025, 2, 3, 4, 5, 6⟩)) :
        List Char → Option (ℕ → PyDateTime)) ("Mars/Olympus".toList) =
      some (fun _ => ⟨2025, 2, 3, 4, 5, 6⟩) ∧
    (get_current_timestamp (fun _ => none) (fun _ => ⟨2024, 1, 1, 0, 0, 0⟩)
        ("Mars/Olympus".toList) 0 =
      strftimeTs ((fun _ => (⟨2024, 1, 1, 0, 0, 0⟩ : PyDateTime)) 0) ∧
    get_current_timestamp (fun _ => some (fun _ => ⟨2025, 2, 3, 4, 5, 6⟩))
        (fun _ => ⟨2024, 1, 1, 0, 0, 0⟩) ("Mars/Olympus".toList) 0 =
      strftimeTs ((fun _ => (⟨2025, 2, 3, 4, 5, 6⟩ : PyDateTime)) 0) ∧
    (post_now_playing (fun _ => none) (fun _ => ⟨2024, 1, 1, 0, 0, 0⟩)
        ("Mars/Olympus".toList) 0 ("https://e".toList) 7 ("Queen".toList)
        ("Song".toList) (TransportResult.response 200)).1 =
      (post_now_playing (fun _ => some (fun _ => ⟨2025, 2, 3, 4, 5, 6⟩))
        (fun _ => ⟨2024, 1, 1, 0, 0, 0⟩) ("Mars/Olympus".toList) 0
        ("https://e".toList) 7 ("Queen".toList) ("Song".toList)
        (TransportResult.response 200)).1 ∧
    (post_now_playing (fun _ => none) (fun _ => ⟨2024, 1, 1, 0, 0, 0⟩)
        ("Mars/Olympus".toList) 0 ("https://e".toList) 7 ("Queen".toList)
        ("Song".toList) (TransportResult.response 200)).2.1 =
      (post_now_playing (fun _ => some (fun _ => ⟨2025, 2, 3, 4, 5, 6⟩))
        (fun _ => ⟨2024, 1, 1, 0, 0, 0⟩) ("Mars/Olympus".toList) 0
        ("https://e".toList) 7 ("Queen".toList) ("Song".toList)
        (TransportResult.response 200)).2.1) :=
  ⟨rfl, rfl,
    c8_timezone_fallback (fun _ => none)
      (fun _ => some (fun _ => ⟨2025, 2, 3, 4, 5, 6⟩))
      (fun _ => ⟨2024, 1, 1, 0, 0, 0⟩) (fun _ => ⟨2025, 2, 3, 4, 5, 6⟩)
      ("Mars/Olympus".toList) 0 ("https://e".toList) 7 ("Queen".toList)
      ("Song".toList) (TransportResult.response 200) rfl rfl⟩

lemma extract_step_no_match (st : Option (List Char) × Option (List Char))
    (l : List Char) (hA : artistMatch (pyStrip l) = none)
    (hT : titleMatch (pyStrip l) = none) : extract_step st l = st := by
  cases hs : pyStrip l with
  | nil => simp [extract_step, hs]
  | cons c cs =>
    rw [hs] at hA hT
    simp [extract_step, hs, hA, hT]

lemma extract_step_artist_match (st : Option (List Char) × Option (List Char))
    (l v : List Char) (hA : artistMatch (pyStrip l) = some v) :
    extract_step st l = (some (pyStrip v), st.2) := by
  cases hs : pyStrip l with
  | nil =>
    rw [hs] at hA
    simp [artistMatch, patMatch, ARTIST_LABEL, labelRest] at hA
  | cons c cs =>
    rw [hs] at hA
    simp [extract_step, hs, hA]

/-- Claim C10.  A line whose label is not followed by the pattern's
mandatory single space before the captured value — such as
`Artist:Queen` (no space after the colon) or `Artist : Queen` (space
before the colon) — matches neither field pattern and is silently
ignored: it leaves both candidates unchanged; only lines of the shape
`Artist: <value>` / `Title: <value>` (label case-insensitive, the
colon followed by one space and a non-empty remainder) set a
candidate. -/
theorem c10_line_shape (st : Option (List Char) × Option (List Char))
    (line : List Char) (hA : artistMatch (pyStrip line) = none)
    (hT : titleMatch (pyStrip line) = none) :
    extract_step st line = st ∧
    extract_step st ("Artist:Queen".toList) = st ∧
    extract_step st ("Artist : Queen".toList) = st ∧
    artistMatch ("Artist:Queen".toList) = none ∧
    artistMatch ("Artist : Queen".toList) = none ∧
    titleMatch ("Title:Hello".toList) = none ∧
    titleMatch ("Title : Hello".toList) = none ∧
    extract_step st ("Artist: Queen".toList) = (some ("Queen".toList), st.2) ∧
    extract_step st ("ARTIST: Queen".toList) = (some ("Queen".toList), st.2) := by
  have hqq : pyStrip ("Queen".toList) = "Queen".toList := by decide
  refine ⟨extract_step_no_match st line hA hT,
    extract_step_no_match st ("Artist:Queen".toList) (by decide) (by decide),
    extract_step_no_match st ("Artist : Queen".toList) (by decide) (by decide),
    by decide, by decide, by decide, by decide, ?_, ?_⟩
  · have h := extract_step_artist_match st ("Artist: Queen".toList)
      ("Queen".toList) (by decide)
    rw [hqq] at h
    exact h
  · have h := extract_step_artist_match st ("ARTIST: Queen".toList)
      ("Queen".toList) (by decide)
    rw [hqq] at h
    exact h

theorem c10_line_shape_witness :
    artistMatch (pyStrip ("some unrecognized line".toList)) = none ∧
    titleMatch (pyStrip ("some unrecognized line".toList)) = none ∧
    (extract_step ((none, none) : Option (List Char) × Option (List Char))
        ("some unrecognized line".toList) = (none, none) ∧
    extract_step ((none, none) : Option (List Char) × Option (List Char))
        ("Artist:Queen".toList) = (none, none) ∧
    extract_step ((none, none) : Option (List Char) × Option (List Char))
        ("Artist : Queen".toList) = (none, none) ∧
    artistMatch ("Artist:Queen".toList) = none ∧
    artistMatch ("Artist : Queen".toList) = none ∧
    titleMatch ("Title:Hello".toList) = none ∧
    titleMatch ("Title : Hello".toList) = none ∧
    extract_step ((none, none) : Option (List Char) × Option (List Char))
        ("Artist: Queen".toList) =
      (some ("Queen".toList),
        ((none, none) : Option (List Char) × Option (List Char)).2) ∧
    extract_step ((none, none) : Option (List Char) × Option (List Char))
        ("ARTIST: Queen".toList) =
      (some ("Queen".toList),
        ((none, none) : Option (List Char) × Option (List Char)).2)) :=
  ⟨by decide, by decide,
    c10_line_shape ((none, none) : Option (List Char) × Option (List Char))
      ("some unrecognized line".toList) (by decide) (by decide)⟩

end NPS
